import Mathlib

/-!
Shallow embedding of `src/main.js`, an interactive three.js solar-system
demo: a sun, three planets with moons, a star field, a click-to-focus
camera, a smoothed time-scale multiplier, and a resize handler.

Scalars that the program stores and updates (rotations, speeds, the time
scale, viewport sizes) are modelled as exact rationals; world positions
(which go through `Math.cos`/`Math.sin` inside the rendering library) are
modelled as real 3-vectors.  Ray picking is modelled by an oracle giving,
for each pickable mesh, the distance at which the current ray hits it
(`none` when it misses).  Because `Raycaster.intersectObjects` defaults to
`recursive = true`, the pickable set is each planet mesh together with its
descendants; the moon orbit nodes are Groups without geometry and so can
never intersect, leaving the planet meshes and the moon meshes as the
effective candidates.  `intersectObjects` sorts the hits by distance as
three.js does.
-/

namespace StarSystem

/-- A THREE.Vector3. -/
structure Vec3 where
  x : ℝ
  y : ℝ
  z : ℝ

instance : Add Vec3 :=
  ⟨fun a b => ⟨a.x + b.x, a.y + b.y, a.z + b.z⟩⟩

/-- A moon's runtime object `{ group: moonOrbit, speed: m.speed }`
(src/main.js line 73); `rotY` is the moon orbit-group's `rotation.y` and
`dist` the moon mesh's local `position.x` inside that group (line 71). -/
structure MoonObj where
  dist : ℚ
  speed : ℚ
  rotY : ℚ
deriving DecidableEq

/-- A planet's runtime object `{ orbitGroup, speed, planet, moons }`
(src/main.js line 75): `orbitRotY` is the orbit-group's `rotation.y`,
`rotY` the planet mesh's own `rotation.y`, `distance` the mesh's local
`position.x`, and `name` its `userData.name`. -/
structure PlanetObj where
  name : String
  distance : ℚ
  speed : ℚ
  orbitRotY : ℚ
  rotY : ℚ
  moons : List MoonObj
deriving DecidableEq

/-- A moon configuration `{ size, dist, speed }` (src/main.js lines 80-82). -/
structure MoonCfg where
  size : ℚ
  dist : ℚ
  speed : ℚ

/-- Identities of the scene-graph nodes created by src/main.js. -/
inductive NodeId where
  | scene
  | sunGroup
  | sunCore
  | starDust
  | orbitGroup (nm : String)
  | planetMesh (nm : String)
  | moonOrbit (nm : String) (j : Nat)
  | moonMesh (nm : String) (j : Nat)
deriving DecidableEq

/-- The scene graph as the list of (child, parent) edges created by
`parent.add(child)` calls. -/
structure SceneGraph where
  edges : List (NodeId × NodeId)
deriving DecidableEq

/-- `parent.add(child)`: record the (child, parent) edge. -/
def SceneGraph.add (g : SceneGraph) (parent child : NodeId) : SceneGraph :=
  ⟨(child, parent) :: g.edges⟩

/-- The parent of a node in the scene graph. -/
def parentOf (g : SceneGraph) (c : NodeId) : Option NodeId :=
  (g.edges.find? (fun e => e.1 == c)).map (fun e => e.2)

/-- The children of a node in the scene graph. -/
def childrenOf (g : SceneGraph) (n : NodeId) : List NodeId :=
  (g.edges.filter (fun e => e.2 == n)).map (fun e => e.1)

/-- `createPlanet(size, color, distance, speed, name, moonConfigs)`
(src/main.js lines 56-78): adds an orbit-group to the scene, the planet
mesh to the orbit-group, and for each moon config a moon orbit-group to
the planet mesh holding one moon mesh; appends the runtime planet object
to the `planets` list.  `size` and `color` only shape geometry/material
and do not enter the runtime object. -/
def createPlanet (acc : SceneGraph × List PlanetObj) (_size : ℚ) (_color : Nat)
    (distance : ℚ) (speed : ℚ) (nm : String) (moonConfigs : List MoonCfg) :
    SceneGraph × List PlanetObj :=
  let g := (acc.1.add NodeId.scene (NodeId.orbitGroup nm)).add
      (NodeId.orbitGroup nm) (NodeId.planetMesh nm)
  let r := moonConfigs.enum.foldl
    (fun (st : SceneGraph × List MoonObj) (jm : Nat × MoonCfg) =>
      ((st.1.add (NodeId.planetMesh nm) (NodeId.moonOrbit nm jm.1)).add
          (NodeId.moonOrbit nm jm.1) (NodeId.moonMesh nm jm.1),
        st.2 ++ [⟨jm.2.dist, jm.2.speed, 0⟩]))
    (g, [])
  (r.1, acc.2 ++ [⟨nm, distance, speed, 0, 0, r.2⟩])

/-- The scene built at startup (src/main.js lines 33-52 and 80-82): sun
group and core, star dust, then the three `createPlanet` calls. -/
def initialScene : SceneGraph × List PlanetObj :=
  let g0 := ((SceneGraph.mk []).add NodeId.scene NodeId.sunGroup).add
      NodeId.sunGroup NodeId.sunCore
  let g1 := g0.add NodeId.scene NodeId.starDust
  let a1 := createPlanet (g1, []) 0.4 0xffccaa 8 0.012 "Mercury"
    [⟨0.08, 0.9, 0.04⟩]
  let a2 := createPlanet a1 0.7 0x00aaff 14 0.008 "Earth"
    [⟨0.12, 1.3, 0.03⟩, ⟨0.08, 1.8, 0.02⟩]
  createPlanet a2 1.1 0xcc88ff 22 0.005 "Jupiter" [⟨0.15, 2.2, 0.015⟩]

/-- The scene graph built at startup. -/
def initialGraph : SceneGraph := initialScene.1

/-- Identity of a mesh that the recursive raycast can hit: a planet mesh,
or the j-th moon mesh of the named planet.  `focusedPlanet` (src/main.js
line 100 stores `intersects[0].object`) is one of these. -/
inductive MeshRef where
  | planetRef (nm : String)
  | moonRef (nm : String) (j : Nat)
deriving DecidableEq

/-- The mutable state of the program: selection, time scale, back
affordance visibility, camera position, orbit-controls target, camera
aspect, renderer and composer sizes, star-field rotation and the planet
objects. -/
structure SimState where
  focusedPlanet : Option MeshRef
  timeScale : ℚ
  backVisible : Bool
  cameraPos : Vec3
  controlsTarget : Vec3
  cameraAspect : ℚ
  rendererW : ℚ
  rendererH : ℚ
  composerW : ℚ
  composerH : ℚ
  starRotY : ℚ
  planets : List PlanetObj

/-- Program state right after startup with window size (w, h)
(src/main.js lines 8-26, 89): no focus, `timeScale = 1.0`, camera at
(25, 20, 40), orbit-controls target at the origin. -/
def initState (w h : ℚ) : SimState where
  focusedPlanet := none
  timeScale := 1.0
  backVisible := false
  cameraPos := ⟨25, 20, 40⟩
  controlsTarget := ⟨0, 0, 0⟩
  cameraAspect := w / h
  rendererW := w
  rendererH := h
  composerW := w
  composerH := h
  starRotY := 0
  planets := initialScene.2

/-- `THREE.MathUtils.lerp(x, y, t) = (1 - t) * x + t * y`. -/
def lerp (x y t : ℚ) : ℚ := (1 - t) * x + t * y

/-- `focusedPlanet ? 0.1 : 1.0` (src/main.js line 126). -/
def targetScale (s : SimState) : ℚ := if s.focusedPlanet.isSome then 0.1 else 1.0

/-- Rotation about the y axis by angle θ, as a three.js `rotation.y`
applies it to a local position. -/
noncomputable def rotateY (θ : ℚ) (v : Vec3) : Vec3 :=
  ⟨v.x * Real.cos (θ : ℝ) + v.z * Real.sin (θ : ℝ), v.y,
    -(v.x * Real.sin (θ : ℝ)) + v.z * Real.cos (θ : ℝ)⟩

/-- World position of a planet mesh: the orbit-group's `rotation.y`
applied to the mesh's local position (distance, 0, 0), as computed by
`Object3D.getWorldPosition`. -/
noncomputable def planetWorldPos (p : PlanetObj) : Vec3 :=
  rotateY p.orbitRotY ⟨(p.distance : ℝ), 0, 0⟩

/-- World position of a moon mesh: the moon sits at (dist, 0, 0) inside
its orbit group (rotated by the group's and the planet mesh's
`rotation.y`), offset by the planet's local position and rotated by the
planet's orbit-group. -/
noncomputable def moonWorldPos (p : PlanetObj) (m : MoonObj) : Vec3 :=
  rotateY p.orbitRotY
    (⟨(p.distance : ℝ), 0, 0⟩ + rotateY p.rotY (rotateY m.rotY ⟨(m.dist : ℝ), 0, 0⟩))

/-- Look up a planet object by its mesh name. -/
def findPlanet (ps : List PlanetObj) (nm : String) : Option PlanetObj :=
  ps.find? (fun p => p.name == nm)

/-- World position of a pickable mesh, looked up in the current planet
objects; `none` only when the reference points outside the planet set,
which cannot happen for references produced by the raycast. -/
noncomputable def refWorldPos (ps : List PlanetObj) : MeshRef → Option Vec3
  | MeshRef.planetRef nm => (findPlanet ps nm).map planetWorldPos
  | MeshRef.moonRef nm j =>
    match findPlanet ps nm with
    | some p => (p.moons[j]?).map (moonWorldPos p)
    | none => none

/-- The meshes tested by `raycaster.intersectObjects(planets.map(p =>
p.planet))` (src/main.js line 97) with its default `recursive = true`:
each planet mesh and, as its descendants, its moon meshes (the moon
orbit Groups carry no geometry and never intersect). -/
def pickables : List PlanetObj → List MeshRef
  | [] => []
  | p :: rest =>
    MeshRef.planetRef p.name ::
      ((List.range p.moons.length).map (MeshRef.moonRef p.name) ++ pickables rest)

/-- Ordering of ray hits by intersection distance. -/
def distLe (a b : MeshRef × ℚ) : Prop := a.2 ≤ b.2

instance : DecidableRel distLe := fun a b => inferInstanceAs (Decidable (a.2 ≤ b.2))

instance : IsTotal (MeshRef × ℚ) distLe := ⟨fun a b => le_total a.2 b.2⟩

instance : IsTrans (MeshRef × ℚ) distLe := ⟨fun _ _ _ h1 h2 => le_trans h1 h2⟩

/-- The intersection list of the recursive raycast: every pickable mesh
the ray hits, with its distance, sorted nearest-first. -/
def intersectPlanets (oracle : MeshRef → Option ℚ) (ps : List PlanetObj) :
    List (MeshRef × ℚ) :=
  List.insertionSort distLe
    ((pickables ps).filterMap (fun r => (oracle r).map (fun d => (r, d))))

/-- Static configuration: whether `document.getElementById('backButton')`
found an element (src/main.js line 26). -/
structure Config where
  backPresent : Bool

/-- The window `click` listener (src/main.js lines 93-113): on a nonempty
intersection list take `intersects[0]`, set `focusedPlanet` to its
object (a planet mesh or a moon mesh), show the back affordance when
present, and jump the camera to the hit mesh's world position plus
(5, 3, 5).  The `getD` default is unreachable: hits come from the
pickable set, where the world-position lookup succeeds. -/
noncomputable def clickHandler (cfg : Config) (oracle : MeshRef → Option ℚ)
    (s : SimState) : SimState :=
  match (intersectPlanets oracle s.planets).head? with
  | none => s
  | some hit =>
    { s with
      focusedPlanet := some hit.1,
      backVisible := if cfg.backPresent then true else s.backVisible,
      cameraPos := ((refWorldPos s.planets hit.1).map (fun v => v + ⟨5, 3, 5⟩)).getD
        s.cameraPos }

/-- The back-button `click` listener (src/main.js lines 115-121). -/
def backHandler (s : SimState) : SimState :=
  { s with focusedPlanet := none, backVisible := false,
           controlsTarget := ⟨0, 0, 0⟩ }

/-- `m.group.rotation.y += m.speed` (src/main.js line 135). -/
def updateMoon (m : MoonObj) : MoonObj := { m with rotY := m.rotY + m.speed }

/-- The per-planet update of one tick (src/main.js lines 132-136). -/
def updatePlanet (ts : ℚ) (p : PlanetObj) : PlanetObj :=
  { p with orbitRotY := p.orbitRotY + p.speed * ts,
           rotY := p.rotY + 0.01,
           moons := p.moons.map updateMoon }

/-- One animation frame (src/main.js lines 124-148): update the time
scale, rotate the star field by `0.0001 * timeScale`, update every
planet, then, when focused, recompute the focused mesh's world position
and copy it into the orbit-controls target. -/
noncomputable def tick (s : SimState) : SimState :=
  let ts := lerp s.timeScale (targetScale s) 0.05
  let s1 := { s with
    timeScale := ts,
    starRotY := s.starRotY + 0.0001 * ts,
    planets := s.planets.map (updatePlanet ts) }
  match s1.focusedPlanet with
  | some r =>
    match refWorldPos s1.planets r with
    | some v => { s1 with controlsTarget := v }
    | none => s1
  | none => s1

/-- The window `resize` listener (src/main.js lines 153-158). -/
def resizeHandler (w h : ℚ) (s : SimState) : SimState :=
  { s with cameraAspect := w / h,
           rendererW := w, rendererH := h,
           composerW := w, composerH := h }

/-- The events the program reacts to. -/
inductive Ev where
  | click (oracle : MeshRef → Option ℚ)
  | back
  | tick
  | resize (w h : ℚ)

/-- Dispatch one event.  When the back DOM element is absent the back
listener was never registered (src/main.js line 115), so a back event is
a no-op. -/
noncomputable def step (cfg : Config) (s : SimState) : Ev → SimState
  | Ev.click oracle => clickHandler cfg oracle s
  | Ev.back => if cfg.backPresent then backHandler s else s
  | Ev.tick => tick s
  | Ev.resize w h => resizeHandler w h s

/-- Run a sequence of events. -/
noncomputable def run (cfg : Config) (s : SimState) (evs : List Ev) : SimState :=
  evs.foldl (step cfg) s

/-- A concrete startup state used by the witnesses. -/
def demoState : SimState := initState 800 600

/-- Mercury's runtime object at startup. -/
def mercuryInit : PlanetObj := ⟨"Mercury", 8, 0.012, 0, 0, [⟨0.9, 0.04, 0⟩]⟩

/-- Earth's runtime object at startup. -/
def earthInit : PlanetObj :=
  ⟨"Earth", 14, 0.008, 0, 0, [⟨1.3, 0.03, 0⟩, ⟨1.8, 0.02, 0⟩]⟩

/-- Jupiter's runtime object at startup. -/
def jupiterInit : PlanetObj := ⟨"Jupiter", 22, 0.005, 0, 0, [⟨2.2, 0.015, 0⟩]⟩

example : initialScene.2 = [mercuryInit, earthInit, jupiterInit] := rfl

/-- The pickable meshes of the startup scene. -/
def initPickables : List MeshRef :=
  [MeshRef.planetRef "Mercury", MeshRef.moonRef "Mercury" 0,
   MeshRef.planetRef "Earth", MeshRef.moonRef "Earth" 0, MeshRef.moonRef "Earth" 1,
   MeshRef.planetRef "Jupiter", MeshRef.moonRef "Jupiter" 0]

example : pickables initialScene.2 = initPickables := rfl

/-! ### Helper lemmas -/

theorem run_nil (cfg : Config) (s : SimState) : run cfg s [] = s := rfl

theorem run_cons (cfg : Config) (s : SimState) (e : Ev) (evs : List Ev) :
    run cfg s (e :: evs) = run cfg (step cfg s e) evs := rfl

theorem lerp_eq_add_mul (x y t : ℚ) : lerp x y t = x + (y - x) * t := by
  unfold lerp; ring

theorem tick_timeScale (s : SimState) :
    (tick s).timeScale = lerp s.timeScale (targetScale s) 0.05 := by
  cases h : s.focusedPlanet with
  | none => simp [tick, h]
  | some r =>
    cases hw : refWorldPos
        (s.planets.map (updatePlanet (lerp s.timeScale (targetScale s) 0.05))) r with
    | none => simp [tick, h, hw]
    | some v => simp [tick, h, hw]

theorem tick_planets (s : SimState) :
    (tick s).planets = s.planets.map (updatePlanet (lerp s.timeScale (targetScale s) 0.05)) := by
  cases h : s.focusedPlanet with
  | none => simp [tick, h]
  | some r =>
    cases hw : refWorldPos
        (s.planets.map (updatePlanet (lerp s.timeScale (targetScale s) 0.05))) r with
    | none => simp [tick, h, hw]
    | some v => simp [tick, h, hw]

theorem tick_focused (s : SimState) : (tick s).focusedPlanet = s.focusedPlanet := by
  cases h : s.focusedPlanet with
  | none => simp [tick, h]
  | some r =>
    cases hw : refWorldPos
        (s.planets.map (updatePlanet (lerp s.timeScale (targetScale s) 0.05))) r with
    | none => simp [tick, h, hw]
    | some v => simp [tick, h, hw]

theorem clickHandler_planets (cfg : Config) (oracle : MeshRef → Option ℚ)
    (s : SimState) : (clickHandler cfg oracle s).planets = s.planets := by
  cases h : (intersectPlanets oracle s.planets).head? with
  | none => simp [clickHandler, h]
  | some hit => simp [clickHandler, h]

theorem clickHandler_timeScale (cfg : Config) (oracle : MeshRef → Option ℚ)
    (s : SimState) : (clickHandler cfg oracle s).timeScale = s.timeScale := by
  cases h : (intersectPlanets oracle s.planets).head? with
  | none => simp [clickHandler, h]
  | some hit => simp [clickHandler, h]

theorem clickHandler_starRotY (cfg : Config) (oracle : MeshRef → Option ℚ)
    (s : SimState) : (clickHandler cfg oracle s).starRotY = s.starRotY := by
  cases h : (intersectPlanets oracle s.planets).head? with
  | none => simp [clickHandler, h]
  | some hit => simp [clickHandler, h]

theorem clickHandler_noop (cfg : Config) (oracle : MeshRef → Option ℚ) (s : SimState)
    (h : (intersectPlanets oracle s.planets).head? = none) :
    clickHandler cfg oracle s = s := by
  simp [clickHandler, h]

theorem head?_mem {α : Type} {l : List α} {a : α} (h : l.head? = some a) : a ∈ l := by
  cases l with
  | nil => cases h
  | cons b t =>
    simp only [List.head?_cons, Option.some.injEq] at h
    exact h ▸ List.mem_cons_self b t

theorem intersect_mem (oracle : MeshRef → Option ℚ) (ps : List PlanetObj)
    (hit : MeshRef × ℚ) (h : hit ∈ intersectPlanets oracle ps) :
    hit.1 ∈ pickables ps ∧ oracle hit.1 = some hit.2 := by
  have hperm := List.perm_insertionSort distLe
    ((pickables ps).filterMap (fun r => (oracle r).map (fun d => (r, d))))
  have hmem : hit ∈ (pickables ps).filterMap (fun r => (oracle r).map (fun d => (r, d))) :=
    hperm.mem_iff.mp h
  rw [List.mem_filterMap] at hmem
  obtain ⟨r, hr, hmap⟩ := hmem
  cases ho : oracle r with
  | none => rw [ho] at hmap; cases hmap
  | some d =>
    rw [ho] at hmap
    simp only [Option.map_some', Option.some.injEq] at hmap
    cases hmap
    exact ⟨hr, ho⟩

theorem intersect_sorted (oracle : MeshRef → Option ℚ) (ps : List PlanetObj) :
    List.Sorted distLe (intersectPlanets oracle ps) :=
  List.sorted_insertionSort distLe _

theorem intersect_head_min (oracle : MeshRef → Option ℚ) (ps : List PlanetObj)
    (hit : MeshRef × ℚ) (h : (intersectPlanets oracle ps).head? = some hit)
    (q : MeshRef) (e : ℚ) (hq : q ∈ pickables ps) (he : oracle q = some e) :
    hit.2 ≤ e := by
  have hmemq : (q, e) ∈ (pickables ps).filterMap (fun r => (oracle r).map (fun d => (r, d))) :=
    List.mem_filterMap.mpr ⟨q, hq, by rw [he]; rfl⟩
  have hperm := List.perm_insertionSort distLe
    ((pickables ps).filterMap (fun r => (oracle r).map (fun d => (r, d))))
  have hmemq' : (q, e) ∈ intersectPlanets oracle ps := hperm.symm.mem_iff.mp hmemq
  have hsorted := intersect_sorted oracle ps
  cases hl : intersectPlanets oracle ps with
  | nil => rw [hl] at hmemq'; cases hmemq'
  | cons a t =>
    rw [hl] at h hmemq' hsorted
    simp only [List.head?_cons, Option.some.injEq] at h
    subst h
    rcases List.mem_cons.mp hmemq' with heq | hmemt
    · exact heq ▸ le_refl e
    · exact List.rel_of_sorted_cons hsorted _ hmemt

theorem intersect_none_iff (oracle : MeshRef → Option ℚ) (ps : List PlanetObj) :
    (intersectPlanets oracle ps).head? = none ↔ ∀ q ∈ pickables ps, oracle q = none := by
  rw [List.head?_eq_none_iff]
  have hperm := List.perm_insertionSort distLe
    ((pickables ps).filterMap (fun r => (oracle r).map (fun d => (r, d))))
  constructor
  · intro h q hq
    unfold intersectPlanets at h
    rw [h] at hperm
    have hnil : (pickables ps).filterMap (fun r => (oracle r).map (fun d => (r, d))) = [] :=
      (List.Perm.nil_eq hperm).symm
    rw [List.filterMap_eq_nil_iff] at hnil
    exact Option.map_eq_none'.mp (hnil q hq)
  · intro h
    have hnil : (pickables ps).filterMap (fun r => (oracle r).map (fun d => (r, d))) = [] := by
      rw [List.filterMap_eq_nil_iff]
      intro a ha
      rw [h a ha]; rfl
    unfold intersectPlanets
    rw [hnil]
    rfl

theorem targetScale_bounds (s : SimState) :
    0.1 ≤ targetScale s ∧ targetScale s ≤ 1 := by
  unfold targetScale
  split <;> norm_num

theorem lerp_bounds (ts tgt : ℚ) (h1 : 0.1 ≤ ts) (h2 : ts ≤ 1)
    (h3 : 0.1 ≤ tgt) (h4 : tgt ≤ 1) :
    0.1 ≤ lerp ts tgt 0.05 ∧ lerp ts tgt 0.05 ≤ 1 := by
  unfold lerp
  constructor <;> nlinarith

theorem step_timeScale_bounds (cfg : Config) (e : Ev) (s : SimState)
    (h1 : 0.1 ≤ s.timeScale) (h2 : s.timeScale ≤ 1) :
    0.1 ≤ (step cfg s e).timeScale ∧ (step cfg s e).timeScale ≤ 1 := by
  cases e with
  | click oracle =>
    show 0.1 ≤ (clickHandler cfg oracle s).timeScale ∧
      (clickHandler cfg oracle s).timeScale ≤ 1
    rw [clickHandler_timeScale]
    exact ⟨h1, h2⟩
  | back =>
    show 0.1 ≤ (if cfg.backPresent then backHandler s else s).timeScale ∧
      (if cfg.backPresent then backHandler s else s).timeScale ≤ 1
    split <;> exact ⟨h1, h2⟩
  | tick =>
    show 0.1 ≤ (tick s).timeScale ∧ (tick s).timeScale ≤ 1
    rw [tick_timeScale]
    exact lerp_bounds _ _ h1 h2 (targetScale_bounds s).1 (targetScale_bounds s).2
  | resize w h =>
    exact ⟨h1, h2⟩

theorem run_timeScale_bounds (cfg : Config) (evs : List Ev) :
    ∀ s : SimState, 0.1 ≤ s.timeScale → s.timeScale ≤ 1 →
      0.1 ≤ (run cfg s evs).timeScale ∧ (run cfg s evs).timeScale ≤ 1 := by
  induction evs with
  | nil => intro s h1 h2; exact ⟨h1, h2⟩
  | cons e t ih =>
    intro s h1 h2
    rw [run_cons]
    have hb := step_timeScale_bounds cfg e s h1 h2
    exact ih _ hb.1 hb.2

theorem step_focused_ne_none (cfg : Config) (hb : cfg.backPresent = false)
    (e : Ev) (s : SimState) (h : s.focusedPlanet ≠ none) :
    (step cfg s e).focusedPlanet ≠ none := by
  cases e with
  | click oracle =>
    show (clickHandler cfg oracle s).focusedPlanet ≠ none
    cases hh : (intersectPlanets oracle s.planets).head? with
    | none => rw [clickHandler_noop cfg oracle s hh]; exact h
    | some hit => simp [clickHandler, hh]
  | back =>
    show (if cfg.backPresent then backHandler s else s).focusedPlanet ≠ none
    rw [hb]
    exact h
  | tick =>
    show (tick s).focusedPlanet ≠ none
    rw [tick_focused]
    exact h
  | resize w hgt =>
    exact h

theorem run_focused_ne_none (cfg : Config) (hb : cfg.backPresent = false)
    (evs : List Ev) : ∀ s : SimState, s.focusedPlanet ≠ none →
      (run cfg s evs).focusedPlanet ≠ none := by
  induction evs with
  | nil => intro s h; exact h
  | cons e t ih =>
    intro s h
    rw [run_cons]
    exact ih _ (step_focused_ne_none cfg hb e s h)

theorem pickables_map_update (ts : ℚ) (ps : List PlanetObj) :
    pickables (ps.map (updatePlanet ts)) = pickables ps := by
  induction ps with
  | nil => rfl
  | cons p rest ih =>
    simp [pickables, updatePlanet, ih]

/-- Invariant: the pickable set is the startup one, and the selection is
empty or one of its meshes. -/
def selInv (s : SimState) : Prop :=
  pickables s.planets = initPickables ∧
  (s.focusedPlanet = none ∨ ∃ r ∈ initPickables, s.focusedPlanet = some r)

theorem step_selInv (cfg : Config) (e : Ev) (s : SimState) (h : selInv s) :
    selInv (step cfg s e) := by
  obtain ⟨hn, hf⟩ := h
  cases e with
  | click oracle =>
    show selInv (clickHandler cfg oracle s)
    cases hh : (intersectPlanets oracle s.planets).head? with
    | none => rw [clickHandler_noop cfg oracle s hh]; exact ⟨hn, hf⟩
    | some hit =>
      have hmem := intersect_mem oracle s.planets hit (head?_mem hh)
      have hfoc : (clickHandler cfg oracle s).focusedPlanet = some hit.1 := by
        simp [clickHandler, hh]
      refine ⟨?_, Or.inr ⟨hit.1, ?_, hfoc⟩⟩
      · rw [clickHandler_planets]
        exact hn
      · rw [← hn]
        exact hmem.1
  | back =>
    show selInv (if cfg.backPresent then backHandler s else s)
    split
    · exact ⟨hn, Or.inl rfl⟩
    · exact ⟨hn, hf⟩
  | tick =>
    show selInv (tick s)
    refine ⟨?_, ?_⟩
    · rw [tick_planets, pickables_map_update]
      exact hn
    · rw [tick_focused]
      exact hf
  | resize w hgt =>
    exact ⟨hn, hf⟩

theorem run_selInv (cfg : Config) (evs : List Ev) :
    ∀ s : SimState, selInv s → selInv (run cfg s evs) := by
  induction evs with
  | nil => intro s h; exact h
  | cons e t ih =>
    intro s h
    rw [run_cons]
    exact ih _ (step_selInv cfg e s h)

theorem initState_selInv (w h : ℚ) : selInv (initState w h) :=
  ⟨rfl, Or.inl rfl⟩

/-- An oracle for a ray that hits only the Earth planet mesh, at
distance 12. -/
def earthOracle : MeshRef → Option ℚ :=
  fun r => match r with
  | MeshRef.planetRef "Earth" => some 12
  | _ => none

/-- An oracle for a ray that hits only Mercury's moon mesh, at
distance 5, missing all three planet meshes. -/
def moonOracle : MeshRef → Option ℚ :=
  fun r => match r with
  | MeshRef.moonRef "Mercury" 0 => some 5
  | _ => none

/-- The startup state with the Earth planet mesh focused, as after a
click on Earth. -/
def focusedDemoState : SimState :=
  { demoState with focusedPlanet := some (MeshRef.planetRef "Earth") }

/-! ### Claims -/

/-- C1: every tick updates TimeScale by
`TimeScale + (target − TimeScale) × 0.05` where the target is 0.1 when a
planet is focused and 1.0 otherwise, and along every event trace from the
startup state (TimeScale = 1.0) TimeScale stays within [0.1, 1.0]. -/
theorem timeScale_recurrence_and_bounded (cfg : Config) (w h : ℚ)
    (evs : List Ev) (s : SimState) :
    (tick s).timeScale = s.timeScale + (targetScale s - s.timeScale) * 0.05
    ∧ targetScale s = (if s.focusedPlanet.isSome then 0.1 else 1.0)
    ∧ 0.1 ≤ (run cfg (initState w h) evs).timeScale
    ∧ (run cfg (initState w h) evs).timeScale ≤ 1 := by
  have hb := run_timeScale_bounds cfg evs (initState w h)
    (by norm_num [initState]) (by norm_num [initState])
  refine ⟨?_, rfl, hb.1, hb.2⟩
  rw [tick_timeScale, lerp_eq_add_mul]

/-- C2: on every tick each planet's orbit-group rotation advances by
`speed * timeScale` (the updated time scale), the planet mesh spins by
the fixed 0.01, and every moon orbit-group advances by its own fixed
speed, not scaled by the time scale. -/
theorem tick_planet_rotation_update (s : SimState) (i : ℕ) (p : PlanetObj)
    (hp : s.planets[i]? = some p) :
    ∃ p' : PlanetObj, (tick s).planets[i]? = some p'
      ∧ p'.orbitRotY = p.orbitRotY + p.speed * (tick s).timeScale
      ∧ p'.rotY = p.rotY + 0.01
      ∧ p'.name = p.name ∧ p'.speed = p.speed
      ∧ ∀ (j : ℕ) (m : MoonObj), p.moons[j]? = some m →
          ∃ m' : MoonObj, p'.moons[j]? = some m'
            ∧ m'.rotY = m.rotY + m.speed ∧ m'.speed = m.speed := by
  refine ⟨updatePlanet (lerp s.timeScale (targetScale s) 0.05) p,
    ?_, ?_, rfl, rfl, rfl, ?_⟩
  · rw [tick_planets, List.getElem?_map, hp]; rfl
  · rw [tick_timeScale]; rfl
  · intro j m hm
    refine ⟨updateMoon m, ?_, rfl, rfl⟩
    show (p.moons.map updateMoon)[j]? = some (updateMoon m)
    rw [List.getElem?_map, hm]; rfl

/-- C2 witness: the Mercury object of the startup state. -/
theorem tick_planet_rotation_update_witness :
    ∃ p' : PlanetObj, (tick demoState).planets[0]? = some p'
      ∧ p'.orbitRotY = mercuryInit.orbitRotY + mercuryInit.speed * (tick demoState).timeScale
      ∧ p'.rotY = mercuryInit.rotY + 0.01
      ∧ p'.name = mercuryInit.name ∧ p'.speed = mercuryInit.speed
      ∧ ∀ (j : ℕ) (m : MoonObj), mercuryInit.moons[j]? = some m →
          ∃ m' : MoonObj, p'.moons[j]? = some m'
            ∧ m'.rotY = m.rotY + m.speed ∧ m'.speed = m.speed :=
  tick_planet_rotation_update demoState 0 mercuryInit rfl

/-- C3: a click whose ray hits the Earth planet mesh and nothing else in
the pickable set (no other planet mesh and no moon mesh) sets the
selection to the Earth mesh, shows the back affordance, and moves the
camera to Earth's world position plus (5, 3, 5); a subsequent back click
clears the selection, hides the affordance, and resets the orbit-controls
target to the origin. -/
theorem click_earth_then_back_scenario (cfg : Config) (hback : cfg.backPresent = true)
    (s : SimState) (pM pE pJ : PlanetObj) (oracle : MeshRef → Option ℚ) (d : ℚ)
    (hps : s.planets = [pM, pE, pJ])
    (hM : pM.name = "Mercury") (hE : pE.name = "Earth") (hJ : pJ.name = "Jupiter")
    (hMm : pM.moons.length = 1) (hEm : pE.moons.length = 2) (hJm : pJ.moons.length = 1)
    (hoM : oracle (MeshRef.planetRef "Mercury") = none)
    (hoE : oracle (MeshRef.planetRef "Earth") = some d)
    (hoJ : oracle (MeshRef.planetRef "Jupiter") = none)
    (hmM : oracle (MeshRef.moonRef "Mercury" 0) = none)
    (hmE0 : oracle (MeshRef.moonRef "Earth" 0) = none)
    (hmE1 : oracle (MeshRef.moonRef "Earth" 1) = none)
    (hmJ : oracle (MeshRef.moonRef "Jupiter" 0) = none) :
    (step cfg s (Ev.click oracle)).focusedPlanet = some (MeshRef.planetRef "Earth")
    ∧ (step cfg s (Ev.click oracle)).backVisible = true
    ∧ (step cfg s (Ev.click oracle)).cameraPos = planetWorldPos pE + ⟨5, 3, 5⟩
    ∧ (step cfg (step cfg s (Ev.click oracle)) Ev.back).focusedPlanet = none
    ∧ (step cfg (step cfg s (Ev.click oracle)) Ev.back).backVisible = false
    ∧ (step cfg (step cfg s (Ev.click oracle)) Ev.back).controlsTarget = Vec3.mk 0 0 0 := by
  have hr1 : List.range 1 = [0] := rfl
  have hr2 : List.range 2 = [0, 1] := rfl
  have hpick : pickables s.planets = initPickables := by
    rw [hps]
    simp [pickables, initPickables, hM, hE, hJ, hMm, hEm, hJm, hr1, hr2]
  have hint : intersectPlanets oracle s.planets = [(MeshRef.planetRef "Earth", d)] := by
    unfold intersectPlanets
    rw [hpick]
    simp [initPickables, hoM, hoE, hoJ, hmM, hmE0, hmE1, hmJ,
      List.insertionSort, List.orderedInsert]
  have hfindE : findPlanet s.planets "Earth" = some pE := by
    rw [hps]
    unfold findPlanet
    rw [List.find?_cons_of_neg _ (by simp [hM]),
      List.find?_cons_of_pos _ (by simp [hE])]
  have hclick : step cfg s (Ev.click oracle) =
      { s with focusedPlanet := some (MeshRef.planetRef "Earth"),
               backVisible := if cfg.backPresent then true else s.backVisible,
               cameraPos := planetWorldPos pE + ⟨5, 3, 5⟩ } := by
    show clickHandler cfg oracle s = _
    simp [clickHandler, hint, refWorldPos, hfindE]
  have hstep2 : step cfg (step cfg s (Ev.click oracle)) Ev.back =
      backHandler (step cfg s (Ev.click oracle)) := by
    show (if cfg.backPresent then _ else _) = _
    rw [hback]
    simp
  refine ⟨?_, ?_, ?_, ?_, ?_, ?_⟩
  · rw [hclick]
  · rw [hclick]; show (if cfg.backPresent then true else s.backVisible) = true
    rw [hback]; simp
  · rw [hclick]
  · rw [hstep2]; rfl
  · rw [hstep2]; rfl
  · rw [hstep2]; rfl

/-- C3 witness: the concrete startup state with a ray hitting only the
Earth planet mesh. -/
theorem click_earth_then_back_scenario_witness :
    (step ⟨true⟩ demoState (Ev.click earthOracle)).focusedPlanet
        = some (MeshRef.planetRef "Earth")
    ∧ (step ⟨true⟩ demoState (Ev.click earthOracle)).backVisible = true
    ∧ (step ⟨true⟩ demoState (Ev.click earthOracle)).cameraPos
        = planetWorldPos earthInit + ⟨5, 3, 5⟩
    ∧ (step ⟨true⟩ (step ⟨true⟩ demoState (Ev.click earthOracle)) Ev.back).focusedPlanet = none
    ∧ (step ⟨true⟩ (step ⟨true⟩ demoState (Ev.click earthOracle)) Ev.back).backVisible = false
    ∧ (step ⟨true⟩ (step ⟨true⟩ demoState (Ev.click earthOracle)) Ev.back).controlsTarget
        = Vec3.mk 0 0 0 :=
  click_earth_then_back_scenario ⟨true⟩ rfl demoState mercuryInit earthInit jupiterInit
    earthOracle 12 rfl rfl rfl rfl rfl rfl rfl rfl rfl rfl rfl rfl rfl rfl

/-- C4: on any tick taken while a planet is focused, the orbit-controls
target afterwards is the focused planet mesh's world position computed
from the updated (post-rotation) planet objects. -/
theorem focused_tick_targets_world_position (s : SimState) (nm : String)
    (h : s.focusedPlanet = some (MeshRef.planetRef nm)) :
    (tick s).controlsTarget =
      ((findPlanet (tick s).planets nm).map planetWorldPos).getD s.controlsTarget := by
  rw [tick_planets]
  cases hf : findPlanet
      (s.planets.map (updatePlanet (lerp s.timeScale (targetScale s) 0.05))) nm with
  | none => simp [tick, h, hf, refWorldPos]
  | some p => simp [tick, h, hf, refWorldPos]

/-- C4 witness: a tick of the startup state with Earth focused. -/
theorem focused_tick_targets_world_position_witness :
    (tick focusedDemoState).controlsTarget =
      ((findPlanet (tick focusedDemoState).planets "Earth").map planetWorldPos).getD
        focusedDemoState.controlsTarget :=
  focused_tick_targets_world_position focusedDemoState "Earth" rfl

/-- C5 counterexample: a ray that misses all three planet meshes but hits
Mercury's moon mesh (a child of the planet mesh, raycast because
`intersectObjects` defaults to recursive) yields a nonempty hit list
whose head is the moon mesh, and the click changes the selection — so
the pick does not return "none when the ray intersects no planet mesh",
and such a click is not a no-op. -/
theorem moon_hit_breaks_planet_only_pick :
    moonOracle (MeshRef.planetRef "Mercury") = none
    ∧ moonOracle (MeshRef.planetRef "Earth") = none
    ∧ moonOracle (MeshRef.planetRef "Jupiter") = none
    ∧ (intersectPlanets moonOracle demoState.planets).head?
        = some (MeshRef.moonRef "Mercury" 0, 5)
    ∧ demoState.focusedPlanet = none
    ∧ (clickHandler ⟨true⟩ moonOracle demoState).focusedPlanet
        = some (MeshRef.moonRef "Mercury" 0) :=
  ⟨rfl, rfl, rfl, rfl, rfl, rfl⟩

/-- C5 amended: the pick returns the nearest intersected mesh of the
pickable set — the planet meshes together with their moon meshes, since
the raycast recurses into children — or none exactly when the ray hits
none of them; a missed click leaves the whole state unchanged, and
clicking never mutates the geometry (planet objects and star rotation). -/
theorem pick_nearest_and_miss_noop (cfg : Config) (oracle : MeshRef → Option ℚ)
    (s : SimState) :
    (∀ hit, (intersectPlanets oracle s.planets).head? = some hit →
        hit.1 ∈ pickables s.planets ∧ oracle hit.1 = some hit.2 ∧
        ∀ q e, q ∈ pickables s.planets → oracle q = some e → hit.2 ≤ e)
    ∧ ((intersectPlanets oracle s.planets).head? = none ↔
        ∀ q ∈ pickables s.planets, oracle q = none)
    ∧ ((intersectPlanets oracle s.planets).head? = none →
        clickHandler cfg oracle s = s)
    ∧ (clickHandler cfg oracle s).planets = s.planets
    ∧ (clickHandler cfg oracle s).starRotY = s.starRotY
    ∧ (clickHandler cfg oracle s).timeScale = s.timeScale := by
  refine ⟨?_, intersect_none_iff oracle s.planets, clickHandler_noop cfg oracle s,
    clickHandler_planets cfg oracle s, clickHandler_starRotY cfg oracle s,
    clickHandler_timeScale cfg oracle s⟩
  intro hit hh
  have hm := intersect_mem oracle s.planets hit (head?_mem hh)
  exact ⟨hm.1, hm.2, fun q e hq he => intersect_head_min oracle s.planets hit hh q e hq he⟩

/-- C5 witness: the pick facts at the concrete startup state. -/
theorem pick_nearest_and_miss_noop_witness :
    (∀ hit, (intersectPlanets earthOracle demoState.planets).head? = some hit →
        hit.1 ∈ pickables demoState.planets ∧ earthOracle hit.1 = some hit.2 ∧
        ∀ q e, q ∈ pickables demoState.planets → earthOracle q = some e → hit.2 ≤ e)
    ∧ ((intersectPlanets earthOracle demoState.planets).head? = none ↔
        ∀ q ∈ pickables demoState.planets, earthOracle q = none)
    ∧ ((intersectPlanets earthOracle demoState.planets).head? = none →
        clickHandler ⟨true⟩ earthOracle demoState = demoState)
    ∧ (clickHandler ⟨true⟩ earthOracle demoState).planets = demoState.planets
    ∧ (clickHandler ⟨true⟩ earthOracle demoState).starRotY = demoState.starRotY
    ∧ (clickHandler ⟨true⟩ earthOracle demoState).timeScale = demoState.timeScale :=
  pick_nearest_and_miss_noop ⟨true⟩ earthOracle demoState

/-- C6 counterexample: with a planet focused and TimeScale = 1.0 the code
moves TimeScale to lerp(1.0, 0.1, 0.05) = 0.955, not to the
lerp(1.0, 0, 0.05) = 0.95 that smoothing toward a target of 0 would give. -/
theorem timeScale_target_zero_false :
    ¬ ((tick focusedDemoState).timeScale = lerp focusedDemoState.timeScale 0 0.05) := by
  rw [tick_timeScale]
  simp only [focusedDemoState, demoState, initState, targetScale, lerp]
  norm_num

/-- C6 amended: while a planet is focused the time-scale multiplier is
smoothed toward the target value 0.1 (and toward 1.0 when no planet is
focused): every tick contracts the distance to the target by the factor
1 − 0.05. -/
theorem timeScale_contracts_to_target (s : SimState) :
    (tick s).timeScale - targetScale s = (1 - 0.05) * (s.timeScale - targetScale s)
    ∧ targetScale s = (if s.focusedPlanet.isSome then 0.1 else 1.0) := by
  refine ⟨?_, rfl⟩
  rw [tick_timeScale, lerp]
  ring

/-- C7: in the constructed scene graph the scene owns exactly one
orbit-group per planet, each orbit-group owns exactly its planet mesh,
every moon orbit-group is a direct child of its planet's mesh (hence
inside the orbit-group's subtree, inheriting the planet's world
transform), and each moon orbit-group owns exactly its moon mesh. -/
theorem scene_graph_hierarchy :
    parentOf initialGraph (NodeId.orbitGroup "Mercury") = some NodeId.scene
    ∧ parentOf initialGraph (NodeId.orbitGroup "Earth") = some NodeId.scene
    ∧ parentOf initialGraph (NodeId.orbitGroup "Jupiter") = some NodeId.scene
    ∧ initialGraph.edges.countP
        (fun e => match e.1 with | NodeId.orbitGroup _ => true | _ => false) = 3
    ∧ initialGraph.edges.countP (fun e => e.1 == NodeId.orbitGroup "Mercury") = 1
    ∧ initialGraph.edges.countP (fun e => e.1 == NodeId.orbitGroup "Earth") = 1
    ∧ initialGraph.edges.countP (fun e => e.1 == NodeId.orbitGroup "Jupiter") = 1
    ∧ childrenOf initialGraph (NodeId.orbitGroup "Mercury") = [NodeId.planetMesh "Mercury"]
    ∧ childrenOf initialGraph (NodeId.orbitGroup "Earth") = [NodeId.planetMesh "Earth"]
    ∧ childrenOf initialGraph (NodeId.orbitGroup "Jupiter") = [NodeId.planetMesh "Jupiter"]
    ∧ parentOf initialGraph (NodeId.moonOrbit "Mercury" 0) = some (NodeId.planetMesh "Mercury")
    ∧ parentOf initialGraph (NodeId.moonOrbit "Earth" 0) = some (NodeId.planetMesh "Earth")
    ∧ parentOf initialGraph (NodeId.moonOrbit "Earth" 1) = some (NodeId.planetMesh "Earth")
    ∧ parentOf initialGraph (NodeId.moonOrbit "Jupiter" 0) = some (NodeId.planetMesh "Jupiter")
    ∧ childrenOf initialGraph (NodeId.moonOrbit "Mercury" 0) = [NodeId.moonMesh "Mercury" 0]
    ∧ childrenOf initialGraph (NodeId.moonOrbit "Earth" 0) = [NodeId.moonMesh "Earth" 0]
    ∧ childrenOf initialGraph (NodeId.moonOrbit "Earth" 1) = [NodeId.moonMesh "Earth" 1]
    ∧ childrenOf initialGraph (NodeId.moonOrbit "Jupiter" 0) = [NodeId.moonMesh "Jupiter" 0]
    ∧ (childrenOf initialGraph (NodeId.planetMesh "Earth")).length = 2 := by
  decide

/-- C8: after a resize to (w, h) the camera aspect is w/h and the
renderer and composer surfaces are (w, h); resizing twice with the same
dimensions equals resizing once. -/
theorem resize_sets_aspect_and_sizes_idempotent (s : SimState) (w h : ℚ) :
    (resizeHandler w h s).cameraAspect = w / h
    ∧ (resizeHandler w h s).rendererW = w ∧ (resizeHandler w h s).rendererH = h
    ∧ (resizeHandler w h s).composerW = w ∧ (resizeHandler w h s).composerH = h
    ∧ resizeHandler w h (resizeHandler w h s) = resizeHandler w h s :=
  ⟨rfl, rfl, rfl, rfl, rfl, rfl⟩

/-- C9: when the back DOM element is absent the back event is a no-op,
so once a planet is focused the selection never becomes empty again along
any event trace, and the TimeScale target stays 0.1. -/
theorem absent_back_button_traps_focus (cfg : Config) (hb : cfg.backPresent = false)
    (s : SimState) (hf : s.focusedPlanet ≠ none) (evs : List Ev) :
    (∀ s' : SimState, step cfg s' Ev.back = s')
    ∧ (run cfg s evs).focusedPlanet ≠ none
    ∧ targetScale (run cfg s evs) = 0.1 := by
  have h2 := run_focused_ne_none cfg hb evs s hf
  refine ⟨?_, h2, ?_⟩
  · intro s'
    show (if cfg.backPresent then backHandler s' else s') = s'
    rw [hb]
    simp
  · rw [targetScale, if_pos (Option.ne_none_iff_isSome.mp h2)]

/-- C9 witness: a trace from the focused startup state with no back
element. -/
theorem absent_back_button_traps_focus_witness :
    (∀ s' : SimState, step ⟨false⟩ s' Ev.back = s')
    ∧ (run ⟨false⟩ focusedDemoState [Ev.tick, Ev.back, Ev.tick]).focusedPlanet ≠ none
    ∧ targetScale (run ⟨false⟩ focusedDemoState [Ev.tick, Ev.back, Ev.tick]) = 0.1 :=
  absent_back_button_traps_focus ⟨false⟩ rfl focusedDemoState
    (Option.some_ne_none (MeshRef.planetRef "Earth")) [Ev.tick, Ev.back, Ev.tick]

/-- C10 counterexample: a click whose ray hits only Mercury's moon mesh
(missing all three planet meshes) changes the selection from empty to
the moon mesh, which is none of the three planet meshes — so the raycast
candidate set is not exactly the three planet meshes and the selection
invariant over planet meshes fails. -/
theorem moon_click_changes_selection :
    moonOracle (MeshRef.planetRef "Mercury") = none
    ∧ moonOracle (MeshRef.planetRef "Earth") = none
    ∧ moonOracle (MeshRef.planetRef "Jupiter") = none
    ∧ demoState.focusedPlanet = none
    ∧ (clickHandler ⟨true⟩ moonOracle demoState).focusedPlanet
        = some (MeshRef.moonRef "Mercury" 0)
    ∧ MeshRef.moonRef "Mercury" 0 ≠ MeshRef.planetRef "Mercury"
    ∧ MeshRef.moonRef "Mercury" 0 ≠ MeshRef.planetRef "Earth"
    ∧ MeshRef.moonRef "Mercury" 0 ≠ MeshRef.planetRef "Jupiter" :=
  ⟨rfl, rfl, rfl, rfl, rfl, by decide, by decide, by decide⟩

/-- C10 amended: the raycast candidates are the three planet meshes
together with their descendants — effectively their moon meshes, since
the intervening Groups carry no geometry; a click whose ray hits none of
these (for example one hitting only the sun or the star field) leaves
the state unchanged, and along every event trace from startup the
selection is empty or one of the pickable meshes. -/
theorem pickable_set_and_selection_invariant (cfg : Config) (w h : ℚ)
    (evs : List Ev) (oracle : MeshRef → Option ℚ) (s : SimState) :
    pickables (initState w h).planets = initPickables
    ∧ ((∀ q ∈ pickables s.planets, oracle q = none) → clickHandler cfg oracle s = s)
    ∧ ((run cfg (initState w h) evs).focusedPlanet = none
        ∨ ∃ r ∈ initPickables, (run cfg (initState w h) evs).focusedPlanet = some r) := by
  refine ⟨rfl, ?_, (run_selInv cfg evs _ (initState_selInv w h)).2⟩
  intro hmiss
  exact clickHandler_noop cfg oracle s ((intersect_none_iff oracle s.planets).mpr hmiss)

/-- C10 witness: the invariant at a concrete trace and oracle. -/
theorem pickable_set_and_selection_invariant_witness :
    pickables (initState 800 600).planets = initPickables
    ∧ ((∀ q ∈ pickables demoState.planets, earthOracle q = none) →
        clickHandler ⟨true⟩ earthOracle demoState = demoState)
    ∧ ((run ⟨true⟩ (initState 800 600) [Ev.tick]).focusedPlanet = none
        ∨ ∃ r ∈ initPickables, (run ⟨true⟩ (initState 800 600) [Ev.tick]).focusedPlanet = some r) :=
  pickable_set_and_selection_invariant ⟨true⟩ 800 600 [Ev.tick] earthOracle demoState

end StarSystem
